import Mathlib

/-!
# WanderWise backend (src/backend/server.py): shallow embedding

This file embeds the data model and the four API operations of the
FastAPI service in `src/backend/server.py` and proves the specification
claims about them.

Modelling conventions:
* Python `int` is `ℤ`; numeric expressions such as `budget * 0.4` are
  modelled exactly over `ℚ` (the spec states them the same way), and
  Python's built-in `round` (round-half-to-even) is `pyRound`.
* The external LLM call (`chat.send_message`) is an oracle
  `llm : String → Except String String`: `.ok text` is a normal textual
  response, `.error m` is any raised exception with message `m`.
* Timestamps (`datetime`) are an abstract instant type `ℕ`;
  `datetime.isoformat` and `datetime.fromisoformat` are stdlib
  collaborators passed as oracles `iso : ℕ → String` and
  `fromiso : String → Option ℕ` (`none` = `ValueError`).
* The Mongo collection is a `List StoredDoc`; `insert_one` appends,
  `find().to_list(100)` is `List.take 100`.
* FastAPI/pydantic request-body validation of the declared `TripRequest`
  schema is `validateTripRequest` over a small JSON value type.
-/

/-- Round-half-to-even on an exact rational, the semantics of Python's
built-in `round` with one argument (`ndigits` absent). -/
def pyRound (q : ℚ) : ℤ :=
  if q - (q.floor : ℚ) < 1/2 then q.floor
  else if 1/2 < q - (q.floor : ℚ) then q.floor + 1
  else if q.floor % 2 = 0 then q.floor else q.floor + 1

/-- Integer-only evaluation form of `pyRound` on a multiple of one tenth
(kernel-reducible, used to compute `pyRound` on concrete inputs). -/
def roundTenths (m : ℤ) : ℤ :=
  if m % 10 < 5 then m / 10
  else if 5 < m % 10 then m / 10 + 1
  else if (m / 10) % 2 = 0 then m / 10 else m / 10 + 1

/-- Round-half-to-even of `n / d` (`d` a positive natural), in integer
arithmetic: the general kernel-reducible evaluation form of `pyRound`
on fractions. -/
def roundDiv (n : ℤ) (d : ℕ) : ℤ :=
  if 2 * (n % (d:ℤ)) < (d:ℤ) then n / (d:ℤ)
  else if (d:ℤ) < 2 * (n % (d:ℤ)) then n / (d:ℤ) + 1
  else if (n / (d:ℤ)) % 2 = 0 then n / (d:ℤ) else n / (d:ℤ) + 1

/-! ## IEEE-754 binary64 arithmetic

`server.py` line 108-113 computes `round(budget * 0.4)` and friends in
Python, i.e. in IEEE-754 double precision: the int budget is converted
to the nearest double, multiplied by the double written `0.4` (not the
real number 2/5), the product rounded again to 53 significant bits, and
only then rounded to an integer.  `RN53 q` is round-to-nearest,
ties-to-even, onto the numbers `m * 2^e` with `|m| < 2^53` — exactly the
binary64 rounding for every magnitude in the binary64 normal range,
which covers all values these endpoints produce for budgets below
overflow (`float(b)` raises `OverflowError` near `2^1024`, far beyond
the modelled domain).  Subnormals (below `2^-1022`) never arise: the
smallest nonzero product magnitude is about 0.1. -/

/-- Number of binary digits of `n` (0 for 0), by fuel recursion so that
the kernel can evaluate it. -/
def natBitsGo : ℕ → ℕ → ℕ
  | 0, _ => 0
  | f+1, n => if n = 0 then 0 else natBitsGo f (n / 2) + 1

def natBits (n : ℕ) : ℕ := natBitsGo n n

/-- `2 ^ g` for an integer exponent, kernel-reducible (equal to the
`zpow` power, see `twoZpow_eq`). -/
def twoZpow (g : ℤ) : ℚ :=
  if 0 ≤ g then ((2 ^ g.toNat : ℕ) : ℚ) else 1 / ((2 ^ (-g).toNat : ℕ) : ℚ)

/-- `⌊log₂ q⌋` for positive `q`, from the bit lengths of numerator and
denominator. -/
def floorLog2 (q : ℚ) : ℤ :=
  if q < twoZpow ((natBits q.num.natAbs : ℤ) - (natBits q.den : ℤ))
  then (natBits q.num.natAbs : ℤ) - (natBits q.den : ℤ) - 1
  else (natBits q.num.natAbs : ℤ) - (natBits q.den : ℤ)

/-- Round to nearest, ties to even, onto 53 significant binary digits:
binary64 rounding throughout the normal range. -/
def RN53 (q : ℚ) : ℚ :=
  if q = 0 then 0
  else (pyRound (q * twoZpow (52 - floorLog2 |q|)) : ℚ) * twoZpow (floorLog2 |q| - 52)

/-- The binary64 double written `0.4` in the source: the closest double
to 2/5 (`= RN53 (4/10)`, see `RN53_four_tenths`). -/
def float04 : ℚ := ((3602879701896397 : ℤ) : ℚ) / 2 ^ 53

/-- The binary64 double written `0.3` in the source (`= RN53 (3/10)`). -/
def float03 : ℚ := ((5404319552844595 : ℤ) : ℚ) / 2 ^ 54

/-- The binary64 double written `0.2` in the source (`= RN53 (2/10)`). -/
def float02 : ℚ := ((3602879701896397 : ℤ) : ℚ) / 2 ^ 54

/-- The binary64 double written `0.1` in the source (`= RN53 (1/10)`). -/
def float01 : ℚ := ((3602879701896397 : ℤ) : ℚ) / 2 ^ 55

/-- `RN53` on a dyadic rational `n / 2^k`, computed purely on integers
(kernel-reducible); returns the result as a dyadic pair.  Agrees in
value with `RN53` (`dyRN53_correct`). -/
def dyRN53 (n : ℤ) (k : ℕ) : ℤ × ℕ :=
  if n = 0 then (0, 0)
  else
    let bl := natBits n.natAbs
    let m : ℤ := if bl ≤ 53 then n * 2 ^ (53 - bl) else roundDiv n (2 ^ (bl - 53))
    if k + 53 ≤ bl then (m * 2 ^ (bl - 53 - k), 0) else (m, k + 53 - bl)

/-- Integer-level evaluator for one cost bucket: the binary64 value of
Python's `round(budget * c)` where `c` is the double `cn / 2^ce`
(`floatMulRound_correct` proves it equal to the `RN53` pipeline). -/
def floatMulRound (b cn : ℤ) (ce : ℕ) : ℤ :=
  roundDiv (dyRN53 ((dyRN53 b 0).1 * cn) ((dyRN53 b 0).2 + ce)).1
    (2 ^ (dyRN53 ((dyRN53 b 0).1 * cn) ((dyRN53 b 0).2 + ce)).2)

/-- `server.py` lines 108-113: the four-bucket cost estimate
`{"accommodation": round(budget*0.4), "food": round(budget*0.3),
"activities": round(budget*0.2), "transport": round(budget*0.1)}`,
modelled as an association list to keep the key set observable.
Each value is computed the way Python computes it: the budget is
converted to binary64 (`RN53 budget`), multiplied by the binary64
constant the literal denotes, the product rounded back to binary64, and
`round` (round-half-even, exact on the double's value) applied last. -/
def estimated_costs (budget : ℤ) : List (String × ℤ) :=
  [("accommodation", pyRound (RN53 (RN53 (budget : ℚ) * float04))),
   ("food",          pyRound (RN53 (RN53 (budget : ℚ) * float03))),
   ("activities",    pyRound (RN53 (RN53 (budget : ℚ) * float02))),
   ("transport",     pyRound (RN53 (RN53 (budget : ℚ) * float01)))]

/-! ## Data model (`server.py` lines 29-56)

`TripRequest` and `TripItinerary` are the two pydantic models; the trip
itinerary is persisted with `created_at` serialized to an ISO string, so
the stored shape (`StoredDoc`) carries `created_at : String`. -/

structure TripRequest where
  destination : String
  budget : ℤ
  duration_days : ℤ
  start_date : String
  interests : List String
  travel_style : String
deriving DecidableEq

structure TripItinerary where
  id : String
  destination : String
  budget : ℤ
  duration_days : ℤ
  start_date : String
  interests : List String
  travel_style : String
  itinerary : String
  recommendations : String
  estimated_costs : List (String × ℤ)
  created_at : ℕ
deriving DecidableEq

/-- The document shape of the `trip_itineraries` Mongo collection:
a serialized `TripItinerary`, `created_at` as an ISO-8601 string
(`server.py` lines 162-167). -/
structure StoredDoc where
  id : String
  destination : String
  budget : ℤ
  duration_days : ℤ
  start_date : String
  interests : List String
  travel_style : String
  itinerary : String
  recommendations : String
  estimated_costs : List (String × ℤ)
  created_at : String
deriving DecidableEq

structure WeatherInfo where
  destination : String
  date : String
  weather_description : String
  temperature : String
  recommendations : String
deriving DecidableEq

/-- FastAPI's `HTTPException(status_code=..., detail=...)`. -/
structure HTTPExc where
  status_code : ℤ
  detail : String
deriving DecidableEq

/-- Starlette's `HTTPException.__str__`, i.e. what Python's `str(e)`
yields for a caught `HTTPException`: `f"{self.status_code}: {self.detail}"`. -/
def strHTTPExc (e : HTTPExc) : String :=
  toString e.status_code ++ ": " ++ e.detail

/-! ## Prompt builder and itinerary generator (`server.py` lines 59-123) -/

/-- `server.py` lines 80-102: the user prompt f-string built from a
validated `TripRequest` (with `interests_str = ", ".join(interests)`). -/
def prompt (r : TripRequest) : String :=
  "Create a detailed " ++ toString r.duration_days ++ "-day trip itinerary for "
    ++ r.destination ++ " with the following specifications:\n\n🎯 TRIP DETAILS:\n- Destination: "
    ++ r.destination ++ "\n- Duration: " ++ toString r.duration_days
    ++ " days\n- Budget: $" ++ toString r.budget ++ " USD\n- Start Date: "
    ++ r.start_date ++ "\n- Interests: " ++ String.intercalate ", " r.interests
    ++ "\n- Travel Style: " ++ r.travel_style
    ++ "\n\n📋 REQUIREMENTS:\nCreate a comprehensive itinerary including:\n"
    ++ "1. Day-by-day schedule with specific activities" ++ "\n"
    ++ "2. Recommended accommodations within budget" ++ "\n"
    ++ "3. Transportation suggestions" ++ "\n"
    ++ "4. Food recommendations (local specialties)" ++ "\n"
    ++ "5. Budget breakdown (accommodation, food, activities, transport)" ++ "\n"
    ++ "6. Weather considerations and packing tips" ++ "\n"
    ++ "7. Cultural insights and local customs" ++ "\n"
    ++ "8. Emergency contacts and useful phrases"
    ++ "\n\nMake it exciting, practical, and perfectly tailored to their interests!"


/-- The `{itinerary, recommendations, estimated_costs}` dict returned by
a successful `generate_trip_itinerary`. -/
structure GenResult where
  itinerary : String
  recommendations : String
  estimated_costs : List (String × ℤ)
deriving DecidableEq

/-- `server.py` lines 59-123, `generate_trip_itinerary`: sends the built
prompt to the external generation capability (the `llm` oracle); any
exception with message `m` is caught and re-raised as
`HTTPException(500, f"Failed to generate itinerary: {m}")`. -/
def generate_trip_itinerary (req : TripRequest)
    (llm : String → Except String String) : Except HTTPExc GenResult :=
  match llm (prompt req) with
  | .error m => .error ⟨500, "Failed to generate itinerary: " ++ m⟩
  | .ok response =>
      .ok { itinerary := response,
            recommendations := "Based on your interests in "
              ++ String.intercalate ", " req.interests
              ++ ", this itinerary is crafted to maximize your "
              ++ req.travel_style ++ " travel experience.",
            estimated_costs := estimated_costs req.budget }

/-- Serialization performed before `insert_one` (`server.py` lines
162-167): `trip_itinerary.dict()` with `created_at` converted to its
ISO-8601 string by the `iso` oracle (`datetime.isoformat`). -/
def toDoc (iso : ℕ → String) (t : TripItinerary) : StoredDoc :=
  { id := t.id, destination := t.destination, budget := t.budget,
    duration_days := t.duration_days, start_date := t.start_date,
    interests := t.interests, travel_style := t.travel_style,
    itinerary := t.itinerary, recommendations := t.recommendations,
    estimated_costs := t.estimated_costs, created_at := iso t.created_at }

/-- `server.py` lines 141-173, the `POST /generate-itinerary` handler
body after request validation: generate, assemble the `TripItinerary`
(fresh `id` and `created_at` from the server-side generators), insert
its serialization, return it.  The outer `except Exception` catches the
`HTTPException` raised by a failed generation and re-raises
`HTTPException(500, str(e))`. -/
def create_trip_itinerary (req : TripRequest) (store : List StoredDoc)
    (llm : String → Except String String) (newId : String) (now : ℕ)
    (iso : ℕ → String) : Except HTTPExc TripItinerary × List StoredDoc :=
  match generate_trip_itinerary req llm with
  | .error e => (.error ⟨500, strHTTPExc e⟩, store)
  | .ok ai =>
      let trip_itinerary : TripItinerary :=
        { id := newId, destination := req.destination, budget := req.budget,
          duration_days := req.duration_days, start_date := req.start_date,
          interests := req.interests, travel_style := req.travel_style,
          itinerary := ai.itinerary, recommendations := ai.recommendations,
          estimated_costs := ai.estimated_costs, created_at := now }
      (.ok trip_itinerary, store ++ [toDoc iso trip_itinerary])

/-! ## Request-body validation (FastAPI + pydantic over `TripRequest`)

The route handler is only entered with a schema-valid body; a body that
is missing a required key or binds it to a value of the wrong type is
answered directly by the framework with a 422 validation error carrying
one entry per offending field.  JSON values are modelled by `JVal`, a
request body by an association list of top-level keys. -/

inductive JVal where
  | str (s : String)
  | int (n : ℤ)
  | arr (elems : List JVal)
  | bool (b : Bool)

/-- One entry of a 422 validation-error payload: the offending field and
the per-field message. -/
structure FieldError where
  loc : String
  msg : String
deriving DecidableEq

def Body := List (String × JVal)

def getKey (body : Body) (k : String) : Option JVal :=
  match body with
  | [] => none
  | (k', v) :: rest => if k' = k then some v else getKey rest k

def checkStr (body : Body) (k : String) : List FieldError :=
  match getKey body k with
  | none => [⟨k, "field required"⟩]
  | some (.str _) => []
  | some _ => [⟨k, "str type expected"⟩]

/-- Accumulating base-10 parse of a digit list; `none` on the first
non-digit character. -/
def digitsValGo : ℕ → List Char → Option ℕ
  | acc, [] => some acc
  | acc, c :: rest =>
      if c.isDigit then digitsValGo (10 * acc + (c.toNat - 48)) rest else none

/-- The integer a decimal string denotes: an optional leading `-`
followed by one or more ASCII digits.  This is the common core of
Python `int(s)` (pydantic v1) and pydantic-core's string-to-int parse
(pydantic v2); strings both versions accept beyond it (surrounding
whitespace, a leading `+`, ...) are version-sensitive at the margin and
kept out of the model, which the rejection theorem's `laxSafeBody`
guard accounts for. -/
def intFromString (s : String) : Option ℤ :=
  match s.data with
  | [] => none
  | '-' :: rest =>
      if rest = [] then none else (digitsValGo 0 rest).map (fun n => -(n : ℤ))
  | l => (digitsValGo 0 l).map (fun n => (n : ℤ))

/-- pydantic's lax conversion of a JSON value to an `int` field: ints
are taken as they are and numeric strings are parsed (both v1 and v2
coerce e.g. `"2000"` to `2000`); lists are rejected by every version.
`bool` (accepted by v1, rejected by v2) is rejected here and excluded
from the rejection theorem by `laxSafeBody`. -/
def coerceInt : JVal → Option ℤ
  | .int n => some n
  | .str s => intFromString s
  | _ => none

def checkInt (body : Body) (k : String) : List FieldError :=
  match getKey body k with
  | none => [⟨k, "field required"⟩]
  | some v => if (coerceInt v).isSome then [] else [⟨k, "integer type expected"⟩]

def isStrVal : JVal → Bool
  | .str _ => true
  | _ => false

def checkStrList (body : Body) (k : String) : List FieldError :=
  match getKey body k with
  | none => [⟨k, "field required"⟩]
  | some (.arr l) => if l.all isStrVal then [] else [⟨k, "str type expected"⟩]
  | some _ => [⟨k, "list type expected"⟩]

/-- `travel_style` has the default `"balanced"`, so absence is fine. -/
def checkOptStr (body : Body) (k : String) : List FieldError :=
  match getKey body k with
  | none => []
  | some (.str _) => []
  | some _ => [⟨k, "str type expected"⟩]

/-- All field-level errors of a body against the `TripRequest` schema,
in field-declaration order. -/
def validationErrors (body : Body) : List FieldError :=
  checkStr body "destination" ++ checkInt body "budget"
    ++ checkInt body "duration_days" ++ checkStr body "start_date"
    ++ checkStrList body "interests" ++ checkOptStr body "travel_style"

def getStr (body : Body) (k : String) : Option String :=
  match getKey body k with
  | some (.str s) => some s
  | _ => none

def getInt (body : Body) (k : String) : Option ℤ :=
  match getKey body k with
  | some v => coerceInt v
  | none => none

/-- Extraction of a `List[str]` value: every element must be a string. -/
def strElems : List JVal → Option (List String)
  | [] => some []
  | .str s :: rest => (strElems rest).map (s :: ·)
  | _ => none

def getStrList (body : Body) (k : String) : Option (List String) :=
  match getKey body k with
  | some (.arr l) => strElems l
  | _ => none

def getTravelStyle (body : Body) : Option String :=
  match getKey body "travel_style" with
  | none => some "balanced"
  | some (.str s) => some s
  | some _ => none

/-- Schema validation of a request body: either the parsed `TripRequest`
or the non-empty list of field errors of the 422 response. -/
def validateTripRequest (body : Body) : Except (List FieldError) TripRequest :=
  match getStr body "destination", getInt body "budget",
      getInt body "duration_days", getStr body "start_date",
      getStrList body "interests", getTravelStyle body with
  | some d, some b, some dd, some sd, some ints, some ts =>
      .ok { destination := d, budget := b, duration_days := dd,
            start_date := sd, interests := ints, travel_style := ts }
  | _, _, _, _, _, _ => .error (validationErrors body)

/-- A response of `POST /generate-itinerary` as observed by the caller:
the 200 payload, the framework's 422 validation error, or a 500. -/
inductive GenResponse where
  | ok (t : TripItinerary)
  | validation_error (errs : List FieldError)
  | server_error (e : HTTPExc)
deriving DecidableEq

/-- The full `POST /generate-itinerary` operation: framework validation,
then `create_trip_itinerary` (`server.py` lines 141-173). -/
def handle_generate (body : Body) (store : List StoredDoc)
    (llm : String → Except String String) (newId : String) (now : ℕ)
    (iso : ℕ → String) : GenResponse × List StoredDoc :=
  match validateTripRequest body with
  | .error errs => (.validation_error errs, store)
  | .ok req =>
      match create_trip_itinerary req store llm newId now iso with
      | (.error e, s) => (.server_error e, s)
      | (.ok t, s) => (.ok t, s)

/-! ## Weather route (`server.py` lines 125-134 and 175-187) -/

/-- The mock dict returned by `get_weather_info`, constant regardless of
`destination` and `date`. -/
structure MockWeather where
  weather_description : String
  temperature : String
  recommendations : String
deriving DecidableEq

def get_weather_info (_destination : String) (_date : String) : MockWeather :=
  { weather_description := "Partly cloudy with mild temperatures",
    temperature := "22-28°C (72-82°F)",
    recommendations := "Pack light layers and a light jacket for evenings. Don't forget sunscreen!" }

/-- `GET /weather/{destination}`: `today` is the oracle for
`datetime.now().strftime("%Y-%m-%d")`.  Python's `if not date:` treats
both an absent and an empty-string `date` as missing. -/
def get_weather (destination : String) (date : Option String) (today : String) :
    WeatherInfo :=
  let d := match date with
    | none => today
    | some s => if s = "" then today else s
  let w := get_weather_info destination d
  { destination := destination, date := d,
    weather_description := w.weather_description,
    temperature := w.temperature, recommendations := w.recommendations }

/-! ## Read-all route (`server.py` lines 189-206) -/

/-- Python's `created_at.replace('Z', '+00:00')` (every occurrence of the
one-character pattern is replaced). -/
def replaceZulu (s : String) : String :=
  ⟨(s.data.map (fun c => if c = 'Z' then "+00:00".data else [c])).flatten⟩

/-- Reconstruction of one stored document (`server.py` lines 195-202):
parse `created_at` back from ISO-8601 via the `fromiso` oracle, falling
back to the current time `now` when parsing raises. -/
def docToTrip (fromiso : String → Option ℕ) (now : ℕ) (doc : StoredDoc) :
    TripItinerary :=
  { id := doc.id, destination := doc.destination, budget := doc.budget,
    duration_days := doc.duration_days, start_date := doc.start_date,
    interests := doc.interests, travel_style := doc.travel_style,
    itinerary := doc.itinerary, recommendations := doc.recommendations,
    estimated_costs := doc.estimated_costs,
    created_at :=
      match fromiso (replaceZulu doc.created_at) with
      | some t => t
      | none => now }

/-- `GET /trips`: `find().to_list(100)` then per-document reconstruction. -/
def get_all_trips (store : List StoredDoc) (fromiso : String → Option ℕ)
    (now : ℕ) : List TripItinerary :=
  (store.take 100).map (docToTrip fromiso now)

/-! ## The API surface as a transition system (`server.py` lines 136-209) -/

/-- One call to one of the four routes, with the per-request oracle data
(LLM outcome, generated id, clock readings, stdlib serializers). -/
inductive ApiOp where
  | root
  | generate (body : Body) (llm : String → Except String String)
      (newId : String) (now : ℕ) (iso : ℕ → String)
  | weather (destination : String) (date : Option String) (today : String)
  | trips (fromiso : String → Option ℕ) (now : ℕ)

/-- Effect of one API call on the `trip_itineraries` collection. -/
def applyOp (store : List StoredDoc) (op : ApiOp) : List StoredDoc :=
  match op with
  | .root => store
  | .generate body llm newId now iso => (handle_generate body store llm newId now iso).2
  | .weather _ _ _ => store
  | .trips _ _ => store

def applySeq (store : List StoredDoc) (ops : List ApiOp) : List StoredDoc :=
  ops.foldl applyOp store


/-- `t` occurs as a contiguous substring of `s`. -/
def strContains (s t : String) : Prop := t.data <:+: s.data

/-- A body the schema accepts whose budget is large enough for the
double-precision cost computation to diverge from exact arithmetic. -/
def bodyBigBudget : Body :=
  [("destination", .str "Paris, France"), ("budget", .int 6940962107496397),
   ("duration_days", .int 5), ("start_date", .str "2025-03-01"),
   ("interests", .arr [.str "Culture"]), ("travel_style", .str "balanced")]

/-- A body that the `TripRequest` schema accepts even though its budget
is negative: every required key is present with the declared type. -/
def bodyNegBudget : Body :=
  [("destination", .str "Paris, France"), ("budget", .int (-100)),
   ("duration_days", .int 5), ("start_date", .str "2025-03-01"),
   ("interests", .arr [.str "Culture"]), ("travel_style", .str "balanced")]

/-- A document exactly as the write path stores it, with the trailing-Z
UTC-designator timestamp variant. -/
def goodDoc : StoredDoc :=
  { id := "id-1", destination := "Paris, France", budget := 2000,
    duration_days := 5, start_date := "2025-03-01", interests := ["Culture"],
    travel_style := "balanced", itinerary := "Day 1: Louvre.",
    recommendations := "recs", estimated_costs := [("accommodation", 800)],
    created_at := "2025-03-01T00:00:00Z" }

/-- A stored document whose `created_at` is not parseable ISO-8601
(`datetime.fromisoformat "not-a-timestamp"` raises `ValueError`, hence
the all-`none` parse oracle). -/
def badDoc : StoredDoc :=
  { id := "id-2", destination := "Paris", budget := 100, duration_days := 2,
    start_date := "2025-03-01", interests := [], travel_style := "balanced",
    itinerary := "plan", recommendations := "recs", estimated_costs := [],
    created_at := "not-a-timestamp" }

/-! ## Theorems -/

set_option maxRecDepth 100000

theorem ratFloor_eq_intFloor (q : ℚ) : q.floor = ⌊q⌋ := by
  rw [Rat.floor_def, Rat.floor_def']

theorem pyRound_intCast_div_ten (m : ℤ) :
    pyRound ((m : ℚ) / 10) = roundTenths m := by
  have hdecomp : 10 * (m / 10) + m % 10 = m := Int.ediv_add_emod m 10
  have hfl : ((m : ℚ) / 10).floor = m / 10 := by
    rw [ratFloor_eq_intFloor]
    simpa using Rat.floor_intCast_div_natCast m 10
  have hm : (m : ℚ) = 10 * ((m / 10 : ℤ) : ℚ) + ((m % 10 : ℤ) : ℚ) := by
    exact_mod_cast congrArg (fun z : ℤ => (z : ℚ)) hdecomp.symm
  have hsub : (m : ℚ) / 10 - ((m / 10 : ℤ) : ℚ) = ((m % 10 : ℤ) : ℚ) / 10 := by
    rw [hm]; ring
  have c1 : ((m % 10 : ℤ) : ℚ) / 10 < 1/2 ↔ m % 10 < 5 := by
    rw [div_lt_iff₀ (by norm_num : (0:ℚ) < 10)]
    constructor
    · intro h; exact_mod_cast (by linarith : ((m % 10 : ℤ) : ℚ) < 5)
    · intro h; have : ((m % 10 : ℤ) : ℚ) < 5 := by exact_mod_cast h
      linarith
  have c2 : 1/2 < ((m % 10 : ℤ) : ℚ) / 10 ↔ 5 < m % 10 := by
    rw [lt_div_iff₀ (by norm_num : (0:ℚ) < 10)]
    constructor
    · intro h; exact_mod_cast (by linarith : (5:ℚ) < ((m % 10 : ℤ) : ℚ))
    · intro h; have : (5:ℚ) < ((m % 10 : ℤ) : ℚ) := by exact_mod_cast h
      linarith
  unfold pyRound roundTenths
  rw [hfl, hsub]
  rcases lt_trichotomy (m % 10) 5 with h | h | h
  · rw [if_pos (c1.mpr h), if_pos h]
  · have hn1 : ¬(((m % 10 : ℤ) : ℚ) / 10 < 1/2) := by rw [c1]; omega
    have hn2 : ¬(1/2 < ((m % 10 : ℤ) : ℚ) / 10) := by rw [c2]; omega
    rw [if_neg hn1, if_neg hn2, if_neg (by omega : ¬(m % 10 < 5)),
      if_neg (by omega : ¬(5 < m % 10))]
  · rw [if_neg (by rw [c1]; omega), if_pos (c2.mpr h),
      if_neg (by omega : ¬(m % 10 < 5)), if_pos h]

theorem pyRound_mul_tenths (b : ℤ) (k : ℕ) :
    pyRound ((b : ℚ) * ((k : ℚ) / 10)) = roundTenths (b * k) := by
  have h : (b : ℚ) * ((k : ℚ) / 10) = ((b * (k : ℤ) : ℤ) : ℚ) / 10 := by
    push_cast; ring
  rw [h, pyRound_intCast_div_ten]

theorem pyRound_ge_floor (q : ℚ) : ⌊q⌋ ≤ pyRound q := by
  unfold pyRound
  rw [ratFloor_eq_intFloor]
  split_ifs <;> omega

theorem abs_pyRound_sub_le (q : ℚ) : |((pyRound q : ℤ) : ℚ) - q| ≤ 1/2 := by
  have hf : ((⌊q⌋ : ℤ) : ℚ) ≤ q := Int.floor_le q
  have hq : q < ((⌊q⌋ : ℤ) : ℚ) + 1 := Int.lt_floor_add_one q
  unfold pyRound
  rw [ratFloor_eq_intFloor]
  split_ifs with h1 h2 h3 <;> rw [abs_le] <;> constructor <;> push_cast <;> linarith

theorem pyRound_nonneg {q : ℚ} (hq : 0 ≤ q) : 0 ≤ pyRound q := by
  have h := pyRound_ge_floor q
  have : (0 : ℤ) ≤ ⌊q⌋ := Int.floor_nonneg.mpr hq
  omega

theorem pyRound_intCast_div (n : ℤ) (d : ℕ) (hd : 0 < d) :
    pyRound ((n : ℚ) / (d : ℚ)) = roundDiv n d := by
  have hdq : (0:ℚ) < (d:ℚ) := by exact_mod_cast hd
  have hdz : (0:ℤ) < (d:ℤ) := by exact_mod_cast hd
  have hdecomp : (d:ℤ) * (n / d) + n % d = n := Int.ediv_add_emod n d
  have hfl : ((n : ℚ) / (d : ℚ)).floor = n / (d:ℤ) := by
    rw [ratFloor_eq_intFloor]
    exact Rat.floor_intCast_div_natCast n d
  have hm : (n : ℚ) = (d:ℚ) * ((n / (d:ℤ) : ℤ) : ℚ) + ((n % (d:ℤ) : ℤ) : ℚ) := by
    exact_mod_cast congrArg (fun z : ℤ => (z : ℚ)) hdecomp.symm
  rcases (⟨n % (d:ℤ), rfl⟩ : ∃ r, n % (d:ℤ) = r) with ⟨r, hr⟩
  have hsub : (n : ℚ) / (d:ℚ) - ((n / (d:ℤ) : ℤ) : ℚ) = (r : ℚ) / (d:ℚ) := by
    rw [hm, hr]; field_simp
  have c1 : (r : ℚ) / (d:ℚ) < 1/2 ↔ 2 * r < (d:ℤ) := by
    rw [div_lt_iff₀ hdq]
    constructor
    · intro h
      have h2 : ((2 * r : ℤ) : ℚ) < ((d:ℤ) : ℚ) := by push_cast; linarith
      exact_mod_cast h2
    · intro h
      have h2 : ((2 * r : ℤ) : ℚ) < ((d:ℤ) : ℚ) := by exact_mod_cast h
      push_cast at h2; linarith
  have c2 : 1/2 < (r : ℚ) / (d:ℚ) ↔ (d:ℤ) < 2 * r := by
    rw [lt_div_iff₀ hdq]
    constructor
    · intro h
      have h2 : (((d:ℤ) : ℤ) : ℚ) < ((2 * r : ℤ) : ℚ) := by push_cast; linarith
      exact_mod_cast h2
    · intro h
      have h2 : (((d:ℤ) : ℤ) : ℚ) < ((2 * r : ℤ) : ℚ) := by exact_mod_cast h
      push_cast at h2; linarith
  unfold pyRound roundDiv
  rw [hfl, hsub, hr]
  rcases lt_trichotomy (2 * r) (d:ℤ) with h | h | h
  · rw [if_pos (c1.mpr h), if_pos h]
  · have hn1 : ¬((r : ℚ) / (d:ℚ) < 1/2) := by rw [c1]; omega
    have hn2 : ¬(1/2 < (r : ℚ) / (d:ℚ)) := by rw [c2]; omega
    rw [if_neg hn1, if_neg hn2, if_neg (by omega : ¬(2 * r < (d:ℤ))),
      if_neg (by omega : ¬((d:ℤ) < 2 * r))]
  · rw [if_neg (by rw [c1]; omega), if_pos (c2.mpr h),
      if_neg (by omega : ¬(2 * r < (d:ℤ))), if_pos h]

theorem pyRound_intCast (z : ℤ) : pyRound ((z : ℚ)) = z := by
  have h := pyRound_intCast_div z 1 one_pos
  simpa [roundDiv] using h

theorem natBitsGo_zero : ∀ f, natBitsGo f 0 = 0
  | 0 => rfl
  | _+1 => by simp [natBitsGo]

theorem natBitsGo_spec :
    ∀ f n, n ≤ f → n ≠ 0 →
      2 ^ (natBitsGo f n - 1) ≤ n ∧ n < 2 ^ natBitsGo f n := by
  intro f
  induction f with
  | zero => intro n h1 h2; omega
  | succ f ih =>
      intro n hle hne
      rw [natBitsGo, if_neg hne]
      by_cases hhalf : n / 2 = 0
      · have hn1 : n = 1 := by omega
        subst hn1
        rw [hhalf, natBitsGo_zero]
        simp
      · have hrec := ih (n / 2) (by omega) hhalf
        set B := natBitsGo f (n / 2) with hB
        have hB1 : 1 ≤ B := by
          by_contra hc
          have : B = 0 := by omega
          rw [this] at hrec
          simp at hrec
          omega
        constructor
        · have h1 : 2 ^ (B - 1) ≤ n / 2 := hrec.1
          calc 2 ^ (B + 1 - 1) = 2 * 2 ^ (B - 1) := by
                rw [← pow_succ']
                congr 1
                omega
            _ ≤ 2 * (n / 2) := by omega
            _ ≤ n := by omega
        · have h2 : n / 2 < 2 ^ B := hrec.2
          calc n ≤ 2 * (n / 2) + 1 := by omega
            _ < 2 * 2 ^ B := by omega
            _ = 2 ^ (B + 1) := (pow_succ' 2 B).symm

theorem natBits_spec {n : ℕ} (hn : n ≠ 0) :
    2 ^ (natBits n - 1) ≤ n ∧ n < 2 ^ natBits n :=
  natBitsGo_spec n n le_rfl hn

theorem natBits_pos {n : ℕ} (hn : n ≠ 0) : 1 ≤ natBits n := by
  have h := (natBits_spec hn).2
  by_contra hc
  have : natBits n = 0 := by omega
  rw [this] at h
  omega

theorem twoZpow_eq (g : ℤ) : twoZpow g = (2:ℚ) ^ g := by
  unfold twoZpow
  split_ifs with h
  · push_cast
    rw [← zpow_natCast]
    congr 1
    omega
  · push_cast
    rw [one_div, ← zpow_natCast, ← zpow_neg]
    congr 1
    omega

theorem twoZpow_pos (g : ℤ) : 0 < twoZpow g := by
  rw [twoZpow_eq]; exact zpow_pos (by norm_num) g

theorem twoZpow_mul (a b : ℤ) : twoZpow a * twoZpow b = twoZpow (a + b) := by
  rw [twoZpow_eq, twoZpow_eq, twoZpow_eq, ← zpow_add₀ (by norm_num : (2:ℚ) ≠ 0)]

theorem twoZpow_natCast (k : ℕ) : twoZpow (k : ℤ) = (2:ℚ) ^ k := by
  rw [twoZpow_eq, zpow_natCast]

theorem twoZpow_le {a b : ℤ} (h : a ≤ b) : twoZpow a ≤ twoZpow b := by
  rw [twoZpow_eq, twoZpow_eq]
  exact zpow_le_zpow_right₀ (by norm_num) h

theorem twoZpow_le_iff {a b : ℤ} : twoZpow a ≤ twoZpow b ↔ a ≤ b := by
  rw [twoZpow_eq, twoZpow_eq]
  constructor
  · intro h
    by_contra hc
    have := zpow_lt_zpow_right₀ (by norm_num : (1:ℚ) < 2) (by omega : b < a)
    linarith
  · intro h; exact zpow_le_zpow_right₀ (by norm_num) h

theorem twoZpow_neg (g : ℤ) : twoZpow (-g) = 1 / twoZpow g := by
  rw [twoZpow_eq, twoZpow_eq, zpow_neg, one_div]

theorem twoZpow_zero : twoZpow 0 = 1 := by
  have := twoZpow_natCast 0
  simpa using this

theorem floorLog2_spec {q : ℚ} (hq : 0 < q) :
    twoZpow (floorLog2 q) ≤ q ∧ q < twoZpow (floorLog2 q + 1) := by
  have hnum : 0 < q.num := Rat.num_pos.mpr hq
  have hnn : q.num.natAbs ≠ 0 := by omega
  have hden : q.den ≠ 0 := q.den_nz
  obtain ⟨hn1, hn2⟩ := natBits_spec hnn
  obtain ⟨hd1, hd2⟩ := natBits_spec hden
  have hbn1 : 1 ≤ natBits q.num.natAbs := natBits_pos hnn
  have hbd1 : 1 ≤ natBits q.den := natBits_pos hden
  set bn := natBits q.num.natAbs with hbn
  set bd := natBits q.den with hbd
  have hdenq : (0:ℚ) < (q.den : ℚ) := by
    exact_mod_cast Nat.pos_of_ne_zero hden
  have hqeq : q = (q.num.natAbs : ℚ) / (q.den : ℚ) := by
    rw [Int.cast_natAbs, abs_of_pos hnum, Rat.num_div_den]
  have hNup : (q.num.natAbs : ℚ) < twoZpow (bn : ℤ) := by
    rw [twoZpow_natCast]; exact_mod_cast hn2
  have hNlow : twoZpow ((bn:ℤ) - 1) ≤ (q.num.natAbs : ℚ) := by
    have he : ((bn:ℤ) - 1) = ((bn - 1 : ℕ) : ℤ) := by omega
    rw [he, twoZpow_natCast]
    exact_mod_cast hn1
  have hDup : (q.den : ℚ) < twoZpow (bd : ℤ) := by
    rw [twoZpow_natCast]; exact_mod_cast hd2
  have hDlow : twoZpow ((bd:ℤ) - 1) ≤ (q.den : ℚ) := by
    have he : ((bd:ℤ) - 1) = ((bd - 1 : ℕ) : ℤ) := by omega
    rw [he, twoZpow_natCast]
    exact_mod_cast hd1
  have hup : q < twoZpow ((bn:ℤ) - bd + 1) := by
    rw [hqeq, div_lt_iff₀ hdenq]
    calc (q.num.natAbs : ℚ) < twoZpow (bn : ℤ) := hNup
      _ = twoZpow ((bn:ℤ) - bd + 1) * twoZpow ((bd:ℤ) - 1) := by
          rw [twoZpow_mul]; congr 1; ring
      _ ≤ twoZpow ((bn:ℤ) - bd + 1) * (q.den : ℚ) :=
          mul_le_mul_of_nonneg_left hDlow (le_of_lt (twoZpow_pos _))
  have hlow : twoZpow ((bn:ℤ) - bd - 1) < q := by
    rw [hqeq, lt_div_iff₀ hdenq]
    calc twoZpow ((bn:ℤ) - bd - 1) * (q.den : ℚ)
        < twoZpow ((bn:ℤ) - bd - 1) * twoZpow (bd : ℤ) :=
          mul_lt_mul_of_pos_left hDup (twoZpow_pos _)
      _ = twoZpow ((bn:ℤ) - 1) := by rw [twoZpow_mul]; congr 1; ring
      _ ≤ (q.num.natAbs : ℚ) := hNlow
  unfold floorLog2
  rw [← hbn, ← hbd]
  split_ifs with h
  · refine ⟨le_of_lt hlow, ?_⟩
    have he : (bn:ℤ) - bd - 1 + 1 = (bn:ℤ) - bd := by ring
    rw [he]
    exact h
  · exact ⟨not_lt.mp h, hup⟩

theorem floorLog2_unique {q : ℚ} (hq : 0 < q) {e : ℤ}
    (h1 : twoZpow e ≤ q) (h2 : q < twoZpow (e + 1)) : floorLog2 q = e := by
  obtain ⟨s1, s2⟩ := floorLog2_spec hq
  by_contra hne
  rcases lt_or_gt_of_ne hne with hlt | hgt
  · have : twoZpow (floorLog2 q + 1) ≤ twoZpow e := twoZpow_le (by omega)
    linarith
  · have : twoZpow (e + 1) ≤ twoZpow (floorLog2 q) := twoZpow_le (by omega)
    linarith

theorem RN53_zero : RN53 0 = 0 := by simp [RN53]

theorem abs_RN53_sub (q : ℚ) : |RN53 q - q| ≤ |q| / 2 ^ 53 := by
  by_cases h0 : q = 0
  · subst h0; simp [RN53]
  · have habs : 0 < |q| := abs_pos.mpr h0
    obtain ⟨hs1, _⟩ := floorLog2_spec habs
    rw [RN53, if_neg h0]
    rcases (⟨floorLog2 |q|, rfl⟩ : ∃ e, floorLog2 |q| = e) with ⟨e, he⟩
    rw [he] at hs1 ⊢
    have hcancel : twoZpow (52 - e) * twoZpow (e - 52) = 1 := by
      rw [twoZpow_mul]
      have h00 : (52 - e) + (e - 52) = 0 := by ring
      rw [h00, twoZpow_zero]
    have hqform : q * twoZpow (52 - e) * twoZpow (e - 52) = q := by
      rw [mul_assoc, hcancel, mul_one]
    have key : (pyRound (q * twoZpow (52 - e)) : ℚ) * twoZpow (e - 52) - q
        = ((pyRound (q * twoZpow (52 - e)) : ℚ) - q * twoZpow (52 - e))
            * twoZpow (e - 52) := by
      rw [sub_mul, hqform]
    have h53 : twoZpow (-53) = 1 / 2 ^ 53 := by
      rw [show ((-53 : ℤ)) = -(((53:ℕ)) : ℤ) by norm_num, twoZpow_neg,
        twoZpow_natCast]
    calc |(pyRound (q * twoZpow (52 - e)) : ℚ) * twoZpow (e - 52) - q|
        = |(pyRound (q * twoZpow (52 - e)) : ℚ) - q * twoZpow (52 - e)|
            * twoZpow (e - 52) := by
          rw [key, abs_mul, abs_of_pos (twoZpow_pos (e - 52))]
      _ ≤ (1/2) * twoZpow (e - 52) := by
          apply mul_le_mul_of_nonneg_right (abs_pyRound_sub_le _)
            (le_of_lt (twoZpow_pos _))
      _ = twoZpow e * twoZpow (-53) := by
          have h12 : (1/2 : ℚ) = twoZpow (-1) := by
            rw [show ((-1 : ℤ)) = -(((1:ℕ)) : ℤ) by norm_num, twoZpow_neg,
              twoZpow_natCast]
            norm_num
          rw [h12, twoZpow_mul, twoZpow_mul]
          congr 1
          ring
      _ ≤ |q| * twoZpow (-53) :=
          mul_le_mul_of_nonneg_right hs1 (le_of_lt (twoZpow_pos _))
      _ = |q| / 2 ^ 53 := by
          rw [h53]
          ring

theorem RN53_nonneg {q : ℚ} (hq : 0 ≤ q) : 0 ≤ RN53 q := by
  by_cases h0 : q = 0
  · subst h0; simp [RN53]
  · rw [RN53, if_neg h0]
    apply mul_nonneg _ (le_of_lt (twoZpow_pos _))
    have : (0:ℤ) ≤ pyRound (q * twoZpow (52 - floorLog2 |q|)) :=
      pyRound_nonneg (mul_nonneg hq (le_of_lt (twoZpow_pos _)))
    exact_mod_cast this

theorem RN53_intCast {n : ℤ} (h : |n| ≤ 2 ^ 52) : RN53 (n : ℚ) = n := by
  by_cases h0 : (n:ℚ) = 0
  · rw [h0, RN53_zero]
  · have habs : 0 < |(n:ℚ)| := abs_pos.mpr h0
    obtain ⟨hs1, _⟩ := floorLog2_spec habs
    have hle : floorLog2 |(n:ℚ)| ≤ 52 := by
      rw [← twoZpow_le_iff]
      calc twoZpow (floorLog2 |(n:ℚ)|) ≤ |(n:ℚ)| := hs1
        _ ≤ ((2 ^ 52 : ℤ) : ℚ) := by
            rw [← Int.cast_abs]; exact_mod_cast h
        _ = twoZpow 52 := by
            rw [show ((52:ℤ)) = (((52:ℕ)):ℤ) by norm_num, twoZpow_natCast]
            norm_num
    rw [RN53, if_neg h0]
    rcases (⟨floorLog2 |(n:ℚ)|, rfl⟩ : ∃ e, floorLog2 |(n:ℚ)| = e) with ⟨e, he⟩
    rw [he] at hle ⊢
    obtain ⟨k, hk⟩ : ∃ k : ℕ, (52 : ℤ) - e = (k:ℤ) := ⟨(52 - e).toNat, by omega⟩
    have hs : (n:ℚ) * twoZpow (52 - e) = ((n * 2 ^ k : ℤ) : ℚ) := by
      rw [hk, twoZpow_natCast]
      push_cast
      ring
    rw [hs, pyRound_intCast, ← hs, mul_assoc, twoZpow_mul]
    have h00 : (52 - e) + (e - 52) = 0 := by ring
    rw [h00, twoZpow_zero]
    exact mul_one _

theorem dyRN53_correct (n : ℤ) (k : ℕ) :
    ((dyRN53 n k).1 : ℚ) / 2 ^ ((dyRN53 n k).2) = RN53 ((n:ℚ) / 2 ^ k) := by
  by_cases hn : n = 0
  · subst hn; simp [dyRN53, RN53]
  · have hnq : (n:ℚ) ≠ 0 := by exact_mod_cast hn
    have hq0 : ((n:ℚ) / 2^k) ≠ 0 := div_ne_zero hnq (by positivity)
    have hnn : n.natAbs ≠ 0 := by omega
    obtain ⟨hb1, hb2⟩ := natBits_spec hnn
    have hbl1 : 1 ≤ natBits n.natAbs := natBits_pos hnn
    set bl := natBits n.natAbs with hbl
    have h2kpos : (0:ℚ) < 2^k := by positivity
    have habs : |(n:ℚ)/2^k| = ((n.natAbs : ℕ):ℚ)/2^k := by
      rw [abs_div, abs_of_pos h2kpos, Int.cast_natAbs, Int.cast_abs]
    have he : floorLog2 |(n:ℚ)/2^k| = (bl:ℤ) - 1 - k := by
      apply floorLog2_unique (abs_pos.mpr hq0)
      · rw [habs, le_div_iff₀ h2kpos]
        have hmul : twoZpow ((bl:ℤ)-1-k) * 2^k = twoZpow ((bl:ℤ)-1) := by
          rw [← twoZpow_natCast k, twoZpow_mul]; congr 1; ring
        rw [hmul, show ((bl:ℤ)-1) = ((bl-1 : ℕ):ℤ) by omega, twoZpow_natCast]
        exact_mod_cast hb1
      · rw [habs, div_lt_iff₀ h2kpos]
        have hmul : twoZpow ((bl:ℤ)-1-k+1) * 2^k = twoZpow (bl:ℤ) := by
          rw [← twoZpow_natCast k, twoZpow_mul]; congr 1; ring
        rw [hmul, twoZpow_natCast]
        exact_mod_cast hb2
    rw [RN53, if_neg hq0, he]
    have hsplit : ((n:ℚ)/2^k) * twoZpow (52 - ((bl:ℤ)-1-k))
        = (n:ℚ) * twoZpow (53 - (bl:ℤ)) := by
      rw [div_eq_mul_inv, mul_assoc]
      congr 1
      have hinv : ((2:ℚ)^k)⁻¹ = twoZpow (-(k:ℤ)) := by
        rw [twoZpow_neg, twoZpow_natCast, one_div]
      rw [hinv, twoZpow_mul]
      congr 1
      ring
    rw [hsplit]
    have hm : pyRound ((n:ℚ) * twoZpow (53 - (bl:ℤ)))
        = (if bl ≤ 53 then n * 2^(53 - bl) else roundDiv n (2^(bl - 53))) := by
      by_cases hbl53 : bl ≤ 53
      · rw [if_pos hbl53,
          show (53 - (bl:ℤ)) = ((53 - bl : ℕ) : ℤ) by omega, twoZpow_natCast,
          show (n:ℚ) * 2^(53-bl : ℕ) = ((n * 2^(53-bl) : ℤ) : ℚ) by push_cast; ring]
        exact pyRound_intCast _
      · rw [if_neg hbl53]
        have hden : ((2^(bl-53) : ℕ):ℚ) ≠ 0 := by positivity
        rw [show twoZpow (53 - (bl:ℤ)) = 1 / ((2^(bl-53):ℕ):ℚ) by
            rw [show (53 - (bl:ℤ)) = -(((bl - 53 : ℕ)):ℤ) by omega, twoZpow_neg,
              twoZpow_natCast]
            push_cast
            ring,
          show (n:ℚ) * (1 / ((2^(bl-53):ℕ):ℚ)) = (n:ℚ)/((2^(bl-53):ℕ):ℚ) by ring]
        exact pyRound_intCast_div n (2^(bl-53)) (by positivity)
    rw [hm, dyRN53, if_neg hn, ← hbl]
    by_cases hk53 : k + 53 ≤ bl
    · rw [if_pos hk53]
      dsimp only
      rw [pow_zero, div_one,
        show ((bl:ℤ)-1-k-52) = ((bl - 53 - k : ℕ):ℤ) by omega, twoZpow_natCast]
      push_cast
      ring
    · rw [if_neg hk53]
      dsimp only
      rw [show ((bl:ℤ)-1-k-52) = -(((k + 53 - bl : ℕ)):ℤ) by omega, twoZpow_neg,
        twoZpow_natCast]
      ring

theorem floatMulRound_correct (b cn : ℤ) (ce : ℕ) :
    ((floatMulRound b cn ce : ℤ) : ℚ)
      = pyRound (RN53 (RN53 (b:ℚ) * (((cn : ℤ):ℚ) / 2 ^ ce))) := by
  have h1 := dyRN53_correct b 0
  rw [pow_zero, div_one] at h1
  have h2 := dyRN53_correct ((dyRN53 b 0).1 * cn) ((dyRN53 b 0).2 + ce)
  have hprod : RN53 ((b:ℚ)) * (((cn : ℤ):ℚ)/2^ce)
      = (((dyRN53 b 0).1 * cn : ℤ):ℚ)/2^((dyRN53 b 0).2 + ce) := by
    rw [← h1]
    push_cast
    rw [pow_add]
    field_simp
  rw [hprod, ← h2]
  have hcast : ((dyRN53 ((dyRN53 b 0).1 * cn) ((dyRN53 b 0).2 + ce)).1 : ℚ)
        / 2 ^ ((dyRN53 ((dyRN53 b 0).1 * cn) ((dyRN53 b 0).2 + ce)).2)
      = ((dyRN53 ((dyRN53 b 0).1 * cn) ((dyRN53 b 0).2 + ce)).1 : ℚ)
        / ((2 ^ ((dyRN53 ((dyRN53 b 0).1 * cn) ((dyRN53 b 0).2 + ce)).2) : ℕ) : ℚ) := by
    push_cast
    ring
  rw [hcast, pyRound_intCast_div _ _ (by positivity)]
  rfl

theorem RN53_four_tenths : RN53 (4/10) = float04 := by
  have h1 : floorLog2 |(4/10:ℚ)| = -2 := by
    rw [show |(4/10:ℚ)| = 4/10 by norm_num]
    apply floorLog2_unique (by norm_num)
    · rw [show ((-2:ℤ)) = -(((2:ℕ)):ℤ) by norm_num, twoZpow_neg, twoZpow_natCast]
      norm_num
    · rw [show ((-2:ℤ) + 1) = -(((1:ℕ)):ℤ) by norm_num, twoZpow_neg, twoZpow_natCast]
      norm_num
  rw [RN53, if_neg (by norm_num), h1,
    show (4/10 : ℚ) * twoZpow (52 - (-2)) = ((4 * 2^54 : ℤ) : ℚ) / 10 by
      rw [show ((52:ℤ) - (-2)) = ((54:ℕ):ℤ) by norm_num, twoZpow_natCast]
      push_cast
      ring,
    pyRound_intCast_div_ten,
    (by decide : roundTenths (4 * 2^54) = 7205759403792794),
    show ((-2:ℤ) - 52) = -(((54:ℕ)):ℤ) by norm_num, twoZpow_neg, twoZpow_natCast]
  unfold float04
  norm_num

theorem RN53_three_tenths : RN53 (3/10) = float03 := by
  have h1 : floorLog2 |(3/10:ℚ)| = -2 := by
    rw [show |(3/10:ℚ)| = 3/10 by norm_num]
    apply floorLog2_unique (by norm_num)
    · rw [show ((-2:ℤ)) = -(((2:ℕ)):ℤ) by norm_num, twoZpow_neg, twoZpow_natCast]
      norm_num
    · rw [show ((-2:ℤ) + 1) = -(((1:ℕ)):ℤ) by norm_num, twoZpow_neg, twoZpow_natCast]
      norm_num
  rw [RN53, if_neg (by norm_num), h1,
    show (3/10 : ℚ) * twoZpow (52 - (-2)) = ((3 * 2^54 : ℤ) : ℚ) / 10 by
      rw [show ((52:ℤ) - (-2)) = ((54:ℕ):ℤ) by norm_num, twoZpow_natCast]
      push_cast
      ring,
    pyRound_intCast_div_ten,
    (by decide : roundTenths (3 * 2^54) = 5404319552844595),
    show ((-2:ℤ) - 52) = -(((54:ℕ)):ℤ) by norm_num, twoZpow_neg, twoZpow_natCast]
  unfold float03
  norm_num

theorem RN53_two_tenths : RN53 (2/10) = float02 := by
  have h1 : floorLog2 |(2/10:ℚ)| = -3 := by
    rw [show |(2/10:ℚ)| = 2/10 by norm_num]
    apply floorLog2_unique (by norm_num)
    · rw [show ((-3:ℤ)) = -(((3:ℕ)):ℤ) by norm_num, twoZpow_neg, twoZpow_natCast]
      norm_num
    · rw [show ((-3:ℤ) + 1) = -(((2:ℕ)):ℤ) by norm_num, twoZpow_neg, twoZpow_natCast]
      norm_num
  rw [RN53, if_neg (by norm_num), h1,
    show (2/10 : ℚ) * twoZpow (52 - (-3)) = ((2 * 2^55 : ℤ) : ℚ) / 10 by
      rw [show ((52:ℤ) - (-3)) = ((55:ℕ):ℤ) by norm_num, twoZpow_natCast]
      push_cast
      ring,
    pyRound_intCast_div_ten,
    (by decide : roundTenths (2 * 2^55) = 7205759403792794),
    show ((-3:ℤ) - 52) = -(((55:ℕ)):ℤ) by norm_num, twoZpow_neg, twoZpow_natCast]
  unfold float02
  norm_num

theorem RN53_one_tenth : RN53 (1/10) = float01 := by
  have h1 : floorLog2 |(1/10:ℚ)| = -4 := by
    rw [show |(1/10:ℚ)| = 1/10 by norm_num]
    apply floorLog2_unique (by norm_num)
    · rw [show ((-4:ℤ)) = -(((4:ℕ)):ℤ) by norm_num, twoZpow_neg, twoZpow_natCast]
      norm_num
    · rw [show ((-4:ℤ) + 1) = -(((3:ℕ)):ℤ) by norm_num, twoZpow_neg, twoZpow_natCast]
      norm_num
  rw [RN53, if_neg (by norm_num), h1,
    show (1/10 : ℚ) * twoZpow (52 - (-4)) = ((1 * 2^56 : ℤ) : ℚ) / 10 by
      rw [show ((52:ℤ) - (-4)) = ((56:ℕ):ℤ) by norm_num, twoZpow_natCast]
      push_cast
      ring,
    pyRound_intCast_div_ten,
    (by decide : roundTenths (1 * 2^56) = 7205759403792794),
    show ((-4:ℤ) - 52) = -(((56:ℕ)):ℤ) by norm_num, twoZpow_neg, twoZpow_natCast]
  unfold float01
  norm_num

theorem estimated_costs_float_eval (b : ℤ) :
    estimated_costs b =
      [("accommodation", floatMulRound b 3602879701896397 53),
       ("food",          floatMulRound b 5404319552844595 54),
       ("activities",    floatMulRound b 3602879701896397 54),
       ("transport",     floatMulRound b 3602879701896397 55)] := by
  have h4 : floatMulRound b 3602879701896397 53
      = pyRound (RN53 (RN53 (b:ℚ) * (((3602879701896397 : ℤ) : ℚ) / 2 ^ 53))) := by
    exact_mod_cast floatMulRound_correct b 3602879701896397 53
  have h3 : floatMulRound b 5404319552844595 54
      = pyRound (RN53 (RN53 (b:ℚ) * (((5404319552844595 : ℤ) : ℚ) / 2 ^ 54))) := by
    exact_mod_cast floatMulRound_correct b 5404319552844595 54
  have h2 : floatMulRound b 3602879701896397 54
      = pyRound (RN53 (RN53 (b:ℚ) * (((3602879701896397 : ℤ) : ℚ) / 2 ^ 54))) := by
    exact_mod_cast floatMulRound_correct b 3602879701896397 54
  have h1 : floatMulRound b 3602879701896397 55
      = pyRound (RN53 (RN53 (b:ℚ) * (((3602879701896397 : ℤ) : ℚ) / 2 ^ 55))) := by
    exact_mod_cast floatMulRound_correct b 3602879701896397 55
  simp only [estimated_costs, float04, float03, float02, float01,
    ← h4, ← h3, ← h2, ← h1]

example : estimated_costs 2000 =
    [("accommodation", 800), ("food", 600), ("activities", 400), ("transport", 200)] := by
  rw [estimated_costs_float_eval]; decide

-- Faithfulness check: on a concrete request the assembled prompt is
-- exactly the one f-string of `server.py` lines 81-102, slots filled.
set_option maxRecDepth 40000 in
example :
    prompt { destination := "Paris, France", budget := 2000, duration_days := 5,
             start_date := "2025-03-01", interests := ["Culture", "Food", "Art"],
             travel_style := "balanced" }
      = "Create a detailed 5-day trip itinerary for Paris, France with the following specifications:\n\n🎯 TRIP DETAILS:\n- Destination: Paris, France\n- Duration: 5 days\n- Budget: $2000 USD\n- Start Date: 2025-03-01\n- Interests: Culture, Food, Art\n- Travel Style: balanced\n\n📋 REQUIREMENTS:\nCreate a comprehensive itinerary including:\n1. Day-by-day schedule with specific activities\n2. Recommended accommodations within budget\n3. Transportation suggestions\n4. Food recommendations (local specialties)\n5. Budget breakdown (accommodation, food, activities, transport)\n6. Weather considerations and packing tips\n7. Cultural insights and local customs\n8. Emergency contacts and useful phrases\n\nMake it exciting, practical, and perfectly tailored to their interests!" := by
  rfl
/-! ## Claim C1 -/

/-- C1 (amended): for every `TripRequest` accepted by the schema, a
successful `POST /generate-itinerary` returns an `estimated_costs`
mapping whose keys are exactly {accommodation, food, activities,
transport}, and each value is `round(budget * c)` computed in binary64,
where `c` is the double the literal `0.4` / `0.3` / `0.2` / `0.1`
denotes (`RN53 (4/10)` etc., not the exact fraction — for large budgets
the two differ, see the counterexample); in particular budget 2000
yields {accommodation: 800, food: 600, activities: 400, transport: 200}. -/
theorem estimatedCosts_keys_values_C1 :
    (∀ b : ℤ,
      (estimated_costs b).map Prod.fst
          = ["accommodation", "food", "activities", "transport"]
        ∧ (estimated_costs b).lookup "accommodation"
            = some (pyRound (RN53 (RN53 (b:ℚ) * RN53 (4/10))))
        ∧ (estimated_costs b).lookup "food"
            = some (pyRound (RN53 (RN53 (b:ℚ) * RN53 (3/10))))
        ∧ (estimated_costs b).lookup "activities"
            = some (pyRound (RN53 (RN53 (b:ℚ) * RN53 (2/10))))
        ∧ (estimated_costs b).lookup "transport"
            = some (pyRound (RN53 (RN53 (b:ℚ) * RN53 (1/10)))))
    ∧ estimated_costs 2000
        = [("accommodation", 800), ("food", 600), ("activities", 400), ("transport", 200)] := by
  constructor
  · intro b
    rw [RN53_four_tenths, RN53_three_tenths, RN53_two_tenths, RN53_one_tenth]
    refine ⟨rfl, ?_, ?_, ?_, ?_⟩ <;> simp [estimated_costs, List.lookup]
  · rw [estimated_costs_float_eval]; decide

/-- C1 counterexample: the schema accepts budget 6940962107496397, for
which the program's activities bucket — `round(budget * 0.2)` computed
in binary64, where the rounded product lands exactly on a half-integer
and `round` ties to even — is 1388192421499280, while the exact
rational `round(budget * 2/10)` is 1388192421499279: reading the
per-value formula `round(budget * 0.2)` as exact arithmetic
misdescribes the returned value. -/
theorem estimatedCosts_float_C1_counterexample :
    validateTripRequest bodyBigBudget
        = .ok { destination := "Paris, France", budget := 6940962107496397,
                duration_days := 5, start_date := "2025-03-01",
                interests := ["Culture"], travel_style := "balanced" }
    ∧ (estimated_costs 6940962107496397).lookup "activities"
        = some 1388192421499280
    ∧ pyRound ((6940962107496397 : ℚ) * ((2:ℚ) / 10)) = 1388192421499279
    ∧ (1388192421499280 : ℤ) ≠ 1388192421499279 := by
  refine ⟨rfl, ?_, ?_, by decide⟩
  · rw [estimated_costs_float_eval]; decide
  · have h := pyRound_mul_tenths 6940962107496397 2
    have h2 : roundTenths ((6940962107496397 : ℤ) * ((2:ℕ) : ℤ)) = 1388192421499279 := by
      decide
    rw [h2] at h
    exact_mod_cast h

/-! ## Claim C4 -/

/-- C4 (amended): the schema also accepts negative budgets, for which
the bucket values are negative, and beyond the float precision range
the sum can deviate from the budget by more than 2 (both in the
counterexample); for every *non-negative* schema-accepted budget each
of the four `estimated_costs` values is a non-negative integer, and for
budgets up to `2^48` their binary64 sum deviates from the input budget
by at most 2 currency units. -/
theorem estimatedCosts_nonneg_sum_C4 (b : ℤ) (hb : 0 ≤ b) :
    (∀ p ∈ estimated_costs b, 0 ≤ p.2)
    ∧ (b ≤ 2 ^ 48 → |((estimated_costs b).map Prod.snd).sum - b| ≤ 2) := by
  have hbq : (0:ℚ) ≤ (b:ℚ) := by exact_mod_cast hb
  have hRb : 0 ≤ RN53 (b:ℚ) := RN53_nonneg hbq
  constructor
  · intro p hp
    simp only [estimated_costs, List.mem_cons, List.not_mem_nil, or_false] at hp
    rcases hp with h | h | h | h <;> subst h
    · exact pyRound_nonneg (RN53_nonneg (mul_nonneg hRb (by norm_num [float04])))
    · exact pyRound_nonneg (RN53_nonneg (mul_nonneg hRb (by norm_num [float03])))
    · exact pyRound_nonneg (RN53_nonneg (mul_nonneg hRb (by norm_num [float02])))
    · exact pyRound_nonneg (RN53_nonneg (mul_nonneg hRb (by norm_num [float01])))
  · intro hb48
    have hbig : |b| ≤ 2 ^ 52 := by
      rw [abs_of_nonneg hb]
      calc b ≤ 2 ^ 48 := hb48
        _ ≤ 2 ^ 52 := by norm_num
    have hfix : RN53 (b:ℚ) = (b:ℚ) := RN53_intCast hbig
    have hb48q : (b:ℚ) ≤ 2 ^ 48 := by exact_mod_cast hb48
    have bucket : ∀ c p : ℚ, 0 ≤ c → c ≤ 1/2 → |c - p| ≤ 1/2^54 →
        |((pyRound (RN53 ((b:ℚ) * c)) : ℤ) : ℚ) - (b:ℚ) * p| ≤ 1/2 + (b:ℚ)/2^52 := by
      intro c p hc0 hc hcp
      have h1 := abs_pyRound_sub_le (RN53 ((b:ℚ) * c))
      have h3 : |(b:ℚ) * c| ≤ (b:ℚ)/2 := by
        rw [abs_mul, abs_of_nonneg hbq, abs_of_nonneg hc0]
        calc (b:ℚ) * c ≤ (b:ℚ) * (1/2) := mul_le_mul_of_nonneg_left hc hbq
          _ = (b:ℚ)/2 := by ring
      have h2 : |RN53 ((b:ℚ) * c) - (b:ℚ) * c| ≤ (b:ℚ)/2^54 := by
        calc |RN53 ((b:ℚ) * c) - (b:ℚ) * c| ≤ |(b:ℚ) * c| / 2^53 :=
              abs_RN53_sub ((b:ℚ) * c)
          _ ≤ ((b:ℚ)/2) / 2^53 := by gcongr
          _ = (b:ℚ)/2^54 := by ring
      have h4 : |(b:ℚ) * c - (b:ℚ) * p| ≤ (b:ℚ)/2^54 := by
        rw [← mul_sub, abs_mul, abs_of_nonneg hbq]
        calc (b:ℚ) * |c - p| ≤ (b:ℚ) * (1/2^54) := mul_le_mul_of_nonneg_left hcp hbq
          _ = (b:ℚ)/2^54 := by ring
      rw [abs_le] at h1 h2 h4 ⊢
      constructor <;> linarith
    have hsum : ((estimated_costs b).map Prod.snd).sum
        = pyRound (RN53 ((b:ℚ) * float04)) + pyRound (RN53 ((b:ℚ) * float03))
          + pyRound (RN53 ((b:ℚ) * float02)) + pyRound (RN53 ((b:ℚ) * float01)) := by
      simp only [estimated_costs, hfix, List.map_cons, List.map_nil,
        List.sum_cons, List.sum_nil]
      ring
    have hacc := bucket float04 (4/10) (by norm_num [float04])
      (by norm_num [float04]) (by rw [abs_le]; norm_num [float04])
    have hfood := bucket float03 (3/10) (by norm_num [float03])
      (by norm_num [float03]) (by rw [abs_le]; norm_num [float03])
    have hact := bucket float02 (2/10) (by norm_num [float02])
      (by norm_num [float02]) (by rw [abs_le]; norm_num [float02])
    have htra := bucket float01 (1/10) (by norm_num [float01])
      (by norm_num [float01]) (by rw [abs_le]; norm_num [float01])
    rw [hsum]
    have key : |((pyRound (RN53 ((b:ℚ) * float04)) : ℤ) : ℚ)
        + (pyRound (RN53 ((b:ℚ) * float03)) : ℤ)
        + (pyRound (RN53 ((b:ℚ) * float02)) : ℤ)
        + (pyRound (RN53 ((b:ℚ) * float01)) : ℤ) - (b:ℚ)| < 3 := by
      have e : (b:ℚ)*(4/10) + (b:ℚ)*(3/10) + (b:ℚ)*(2/10) + (b:ℚ)*(1/10) = (b:ℚ) := by
        ring
      have hbb : (b:ℚ)/2^52 ≤ 1/16 := by
        rw [div_le_iff₀ (by positivity)]
        calc (b:ℚ) ≤ 2^48 := hb48q
          _ = (1/16) * 2^52 := by norm_num
      rw [abs_le] at hacc hfood hact htra
      rw [abs_lt]
      constructor <;> linarith
    have key2 : |pyRound (RN53 ((b:ℚ) * float04)) + pyRound (RN53 ((b:ℚ) * float03))
        + pyRound (RN53 ((b:ℚ) * float02)) + pyRound (RN53 ((b:ℚ) * float01)) - b| < 3 := by
      have cast1 : ((|pyRound (RN53 ((b:ℚ) * float04)) + pyRound (RN53 ((b:ℚ) * float03))
          + pyRound (RN53 ((b:ℚ) * float02)) + pyRound (RN53 ((b:ℚ) * float01)) - b| : ℤ) : ℚ)
          < ((3:ℤ) : ℚ) := by push_cast; exact key
      exact_mod_cast cast1
    omega

/-- Witness for C4 at budget 2001 (the three rounded-up buckets make the
sum land at 2000, deviation 1). -/
theorem estimatedCosts_nonneg_sum_C4_witness :
    (0:ℤ) ≤ 2001
    ∧ ((∀ p ∈ estimated_costs 2001, 0 ≤ p.2)
      ∧ ((2001:ℤ) ≤ 2 ^ 48 → |((estimated_costs 2001).map Prod.snd).sum - 2001| ≤ 2)) :=
  ⟨by decide, estimatedCosts_nonneg_sum_C4 2001 (by decide)⟩

/-- C4 counterexample: the schema accepts `budget = -100` (all required
keys present, right types), for which the accommodation bucket is the
negative value `round(-100 * 0.4) = -40`, so "each of the four values
is a non-negative integer" fails for a schema-accepted request; and at
the schema-acceptable budget `10^17 + 5` the four binary64 buckets sum
to `10^17`, a deviation of 5, so the unconditional "sum within ±2 of
the budget" also fails. -/
theorem estimatedCosts_negative_C4_counterexample :
    validateTripRequest bodyNegBudget
        = .ok { destination := "Paris, France", budget := -100, duration_days := 5,
                start_date := "2025-03-01", interests := ["Culture"],
                travel_style := "balanced" }
    ∧ (estimated_costs (-100)).lookup "accommodation" = some (-40)
    ∧ ¬ (∀ p ∈ estimated_costs (-100), 0 ≤ p.2)
    ∧ ((estimated_costs (10 ^ 17 + 5)).map Prod.snd).sum = 10 ^ 17
    ∧ ¬ (|((estimated_costs (10 ^ 17 + 5)).map Prod.snd).sum - (10 ^ 17 + 5)| ≤ 2) := by
  refine ⟨rfl, ?_, ?_, ?_, ?_⟩
  · rw [estimated_costs_float_eval]; decide
  · intro hall
    have hmem : (("accommodation", (-40:ℤ))) ∈ estimated_costs (-100) := by
      rw [estimated_costs_float_eval]; decide
    have := hall _ hmem
    norm_num at this
  · rw [estimated_costs_float_eval]; decide
  · rw [estimated_costs_float_eval]; decide

/-! ## Claim C8 -/

theorem strContains_rfl (s : String) : strContains s s :=
  List.infix_rfl

theorem strContains_appendl {s u : String} (t : String) (h : strContains s u) :
    strContains (t ++ s) u := by
  unfold strContains at *
  rw [String.data_append]
  exact h.trans (List.suffix_append t.data s.data).isInfix

theorem strContains_appendr {s u : String} (t : String) (h : strContains s u) :
    strContains (s ++ t) u := by
  unfold strContains at *
  rw [String.data_append]
  exact h.trans (List.prefix_append s.data t.data).isInfix

/-- C8: for every validated TripRequest the prompt sent to the external
generator is a single formatted string embedding all six request fields
(destination, budget, duration_days, start_date, the comma-joined
interests, travel_style) together with a fixed instructional preamble
naming the eight required sections of the answer.  Prompt construction is
a total pure function (`prompt`), so it has no side effects and no error
conditions. -/
theorem prompt_embeds_fields_C8 (r : TripRequest) :
    strContains (prompt r) r.destination
    ∧ strContains (prompt r) (toString r.budget)
    ∧ strContains (prompt r) (toString r.duration_days)
    ∧ strContains (prompt r) r.start_date
    ∧ strContains (prompt r) (String.intercalate ", " r.interests)
    ∧ strContains (prompt r) r.travel_style
    ∧ strContains (prompt r) "1. Day-by-day schedule with specific activities"
    ∧ strContains (prompt r) "2. Recommended accommodations within budget"
    ∧ strContains (prompt r) "3. Transportation suggestions"
    ∧ strContains (prompt r) "4. Food recommendations (local specialties)"
    ∧ strContains (prompt r) "5. Budget breakdown (accommodation, food, activities, transport)"
    ∧ strContains (prompt r) "6. Weather considerations and packing tips"
    ∧ strContains (prompt r) "7. Cultural insights and local customs"
    ∧ strContains (prompt r) "8. Emergency contacts and useful phrases" := by
  unfold prompt
  refine ⟨?_, ?_, ?_, ?_, ?_, ?_, ?_, ?_, ?_, ?_, ?_, ?_, ?_, ?_⟩ <;>
    repeat
      first
        | exact strContains_appendl _ (strContains_rfl _)
        | apply strContains_appendr

/-! ## Claim C2 -/

/-- C2: if the external generation call raises any exception (message
`m`) during `POST /generate-itinerary`, the request is answered with a
500 server error whose message embeds the original exception message
(`detail = str(HTTPException(500, "Failed to generate itinerary: " + m))`),
no partial result is returned, and the store is unchanged by the failed
request.  The single consultation of the `llm` oracle is the one call
made; no retry exists in the control flow. -/
theorem generateFailure_C2 (req : TripRequest) (store : List StoredDoc)
    (llm : String → Except String String) (newId : String) (now : ℕ)
    (iso : ℕ → String) (m : String) (h : llm (prompt req) = .error m) :
    ∃ e : HTTPExc,
      create_trip_itinerary req store llm newId now iso = (.error e, store)
      ∧ e.status_code = 500
      ∧ e.detail = strHTTPExc ⟨500, "Failed to generate itinerary: " ++ m⟩
      ∧ strContains e.detail m := by
  refine ⟨⟨500, strHTTPExc ⟨500, "Failed to generate itinerary: " ++ m⟩⟩, ?_, rfl, rfl, ?_⟩
  · unfold create_trip_itinerary generate_trip_itinerary
    rw [h]
  · show strContains (toString (500:ℤ) ++ ": " ++ ("Failed to generate itinerary: " ++ m)) m
    exact strContains_appendl _ (strContains_appendl _ (strContains_rfl m))

theorem generateFailure_C2_witness :
    ∃ e : HTTPExc,
      create_trip_itinerary
          { destination := "Paris, France", budget := 2000, duration_days := 5,
            start_date := "2025-03-01", interests := ["Culture", "Food", "Art"],
            travel_style := "balanced" }
          [] (fun _ => .error "quota exceeded") "id-1" 17 (fun _ => "2025-03-01T00:00:00+00:00")
        = (.error e, [])
      ∧ e.status_code = 500
      ∧ e.detail = strHTTPExc ⟨500, "Failed to generate itinerary: " ++ "quota exceeded"⟩
      ∧ strContains e.detail "quota exceeded" :=
  generateFailure_C2 _ [] (fun _ => .error "quota exceeded") "id-1" 17
    (fun _ => "2025-03-01T00:00:00+00:00") "quota exceeded" rfl

/-! ## Claim C10 -/

/-- C10: on every successful `POST /generate-itinerary`, the document
inserted into the store is field-for-field the `TripItinerary` returned
to the caller — same id, destination, budget, duration_days, start_date,
interests, travel_style, itinerary, recommendations, estimated_costs —
except that `created_at` is stored as its ISO-8601 serialization
(`iso t.created_at`) while the response carries the timestamp itself. -/
theorem insertedDoc_matches_response_C10 (req : TripRequest)
    (store : List StoredDoc) (llm : String → Except String String)
    (newId : String) (now : ℕ) (iso : ℕ → String) (text : String)
    (h : llm (prompt req) = .ok text) :
    ∃ t : TripItinerary,
      create_trip_itinerary req store llm newId now iso
        = (.ok t, store ++
            [{ id := t.id, destination := t.destination, budget := t.budget,
               duration_days := t.duration_days, start_date := t.start_date,
               interests := t.interests, travel_style := t.travel_style,
               itinerary := t.itinerary, recommendations := t.recommendations,
               estimated_costs := t.estimated_costs,
               created_at := iso t.created_at }]) := by
  refine ⟨{ id := newId, destination := req.destination, budget := req.budget,
            duration_days := req.duration_days, start_date := req.start_date,
            interests := req.interests, travel_style := req.travel_style,
            itinerary := text,
            recommendations := "Based on your interests in "
              ++ String.intercalate ", " req.interests
              ++ ", this itinerary is crafted to maximize your "
              ++ req.travel_style ++ " travel experience.",
            estimated_costs := estimated_costs req.budget, created_at := now }, ?_⟩
  unfold create_trip_itinerary generate_trip_itinerary
  rw [h]
  rfl

theorem insertedDoc_matches_response_C10_witness :
    ∃ t : TripItinerary,
      create_trip_itinerary
          { destination := "Paris, France", budget := 2000, duration_days := 5,
            start_date := "2025-03-01", interests := ["Culture", "Food", "Art"],
            travel_style := "balanced" }
          [] (fun _ => .ok "Day 1: Louvre.") "id-1" 17
          (fun _ => "2025-03-01T00:00:00+00:00")
        = (.ok t, [] ++
            [{ id := t.id, destination := t.destination, budget := t.budget,
               duration_days := t.duration_days, start_date := t.start_date,
               interests := t.interests, travel_style := t.travel_style,
               itinerary := t.itinerary, recommendations := t.recommendations,
               estimated_costs := t.estimated_costs,
               created_at := (fun _ => "2025-03-01T00:00:00+00:00") t.created_at }]) :=
  insertedDoc_matches_response_C10 _ [] (fun _ => .ok "Day 1: Louvre.") "id-1" 17
    (fun _ => "2025-03-01T00:00:00+00:00") "Day 1: Louvre." rfl

/-! ## Claim C3 -/

/-- C5: `GET /trips` returns at most 100 records; each returned record
echoes its stored document field for field, with `created_at` parsed back
from the stored ISO-8601 string — after the trailing-`Z` variant is
rewritten to `+00:00` — and a document whose `created_at` fails to parse
is returned with the current time as its `created_at` rather than being
rejected or dropped (the `Forall₂` pairs every fetched document with its
returned record). -/
theorem trips_read_C5 (store : List StoredDoc) (fromiso : String → Option ℕ)
    (now : ℕ) :
    (get_all_trips store fromiso now).length ≤ 100
    ∧ List.Forall₂
        (fun (doc : StoredDoc) (t : TripItinerary) =>
          t.id = doc.id ∧ t.destination = doc.destination ∧ t.budget = doc.budget
          ∧ t.duration_days = doc.duration_days ∧ t.start_date = doc.start_date
          ∧ t.interests = doc.interests ∧ t.travel_style = doc.travel_style
          ∧ t.itinerary = doc.itinerary ∧ t.recommendations = doc.recommendations
          ∧ t.estimated_costs = doc.estimated_costs
          ∧ t.created_at = (fromiso (replaceZulu doc.created_at)).getD now)
        (store.take 100) (get_all_trips store fromiso now) := by
  constructor
  · unfold get_all_trips
    rw [List.length_map, List.length_take]
    exact min_le_left _ _
  · unfold get_all_trips
    rw [List.forall₂_map_right_iff, List.forall₂_same]
    intro doc _
    unfold docToTrip
    refine ⟨rfl, rfl, rfl, rfl, rfl, rfl, rfl, rfl, rfl, rfl, ?_⟩
    cases hc : fromiso (replaceZulu doc.created_at) <;> simp [hc]

/-! ## Claim C6 -/

/-- C6 (amended): two `GET /trips` calls with no writes in between return
the same records provided every fetched document's `created_at` string
parses (which holds for every document written by this API); a document
with an unparseable `created_at` is assigned the *current* time, so two
reads at different times then disagree. -/
theorem trips_idempotent_C6 (store : List StoredDoc)
    (fromiso : String → Option ℕ) (t1 t2 : ℕ)
    (h : ∀ doc ∈ store.take 100, (fromiso (replaceZulu doc.created_at)).isSome) :
    get_all_trips store fromiso t1 = get_all_trips store fromiso t2 := by
  unfold get_all_trips
  apply List.map_congr_left
  intro doc hdoc
  have hs := h doc hdoc
  unfold docToTrip
  cases hc : fromiso (replaceZulu doc.created_at) with
  | none => rw [hc] at hs; cases hs
  | some t => rfl

theorem trips_idempotent_C6_witness :
    get_all_trips [goodDoc]
        (fun s => if s = "2025-03-01T00:00:00+00:00" then some 42 else none) 0
      = get_all_trips [goodDoc]
        (fun s => if s = "2025-03-01T00:00:00+00:00" then some 42 else none) 1 :=
  trips_idempotent_C6 [goodDoc]
    (fun s => if s = "2025-03-01T00:00:00+00:00" then some 42 else none) 0 1
    (by decide)

/-- C6 counterexample: over a store holding one document whose
`created_at` does not parse, two `GET /trips` calls with no intervening
writes — one at current time 0, one at current time 1 — return different
records, because the parse-failure fallback substitutes the current
time.  So "for every store state" the claim fails; it holds only for
stores whose timestamps all parse. -/
theorem trips_idempotent_C6_counterexample :
    get_all_trips [badDoc] (fun _ => none) 0
      ≠ get_all_trips [badDoc] (fun _ => none) 1 := by
  intro h
  have h0 : (get_all_trips [badDoc] (fun _ => none) 0).map TripItinerary.created_at
      = [0] := rfl
  have h1 : (get_all_trips [badDoc] (fun _ => none) 1).map TripItinerary.created_at
      = [1] := rfl
  rw [h] at h0
  rw [h1] at h0
  cases h0

/-! ## Claim C7 -/

/-- C7 (amended): `GET /weather/{x}?date=d` returns the same fixed
weather_description, temperature and recommendations strings regardless
of `x` and `d`, echoing the destination back; the date is echoed back,
except that Python's `if not date:` also treats a supplied *empty-string*
date like an absent one, replacing it (like an absent date) with the
current date. -/
theorem weather_constant_C7 (x : String) (d : Option String) (today : String) :
    (get_weather x d today).weather_description
        = "Partly cloudy with mild temperatures"
    ∧ (get_weather x d today).temperature = "22-28°C (72-82°F)"
    ∧ (get_weather x d today).recommendations
        = "Pack light layers and a light jacket for evenings. Don't forget sunscreen!"
    ∧ (get_weather x d today).destination = x
    ∧ (get_weather x d today).date
        = (match d with
            | none => today
            | some s => if s = "" then today else s) :=
  ⟨rfl, rfl, rfl, rfl, rfl⟩

/-- C7 counterexample: a request that *supplies* the date `""` is
answered with the current date, not the supplied date, so "the given
destination and date echoed back" fails as stated for every date value
the query parameter can take. -/
theorem weather_emptyDate_C7_counterexample :
    (get_weather "Paris, France" (some "") "2025-03-01").date = "2025-03-01"
    ∧ (get_weather "Paris, France" (some "") "2025-03-01").date ≠ "" := by
  exact ⟨rfl, by decide⟩

/-! ## Claim C9 -/

theorem applyOp_cases (store : List StoredDoc) (op : ApiOp) :
    applyOp store op = store
    ∨ ∃ body llm newId now iso d, op = ApiOp.generate body llm newId now iso
        ∧ applyOp store op = store ++ [d] := by
  cases op with
  | root => exact Or.inl rfl
  | weather x d t => exact Or.inl rfl
  | trips f n => exact Or.inl rfl
  | generate body llm newId now iso =>
      cases hv : validateTripRequest body with
      | error errs =>
          left
          show (handle_generate body store llm newId now iso).2 = store
          simp only [handle_generate, hv]
      | ok req =>
          cases hl : llm (prompt req) with
          | error m =>
              left
              show (handle_generate body store llm newId now iso).2 = store
              simp only [handle_generate, hv, create_trip_itinerary,
                generate_trip_itinerary, hl]
          | ok text =>
              right
              refine ⟨body, llm, newId, now, iso,
                toDoc iso
                  { id := newId, destination := req.destination,
                    budget := req.budget, duration_days := req.duration_days,
                    start_date := req.start_date, interests := req.interests,
                    travel_style := req.travel_style, itinerary := text,
                    recommendations := "Based on your interests in "
                      ++ String.intercalate ", " req.interests
                      ++ ", this itinerary is crafted to maximize your "
                      ++ req.travel_style ++ " travel experience.",
                    estimated_costs := estimated_costs req.budget,
                    created_at := now }, rfl, ?_⟩
              show (handle_generate body store llm newId now iso).2 = _
              simp only [handle_generate, hv, create_trip_itinerary,
                generate_trip_itinerary, hl]

theorem applyOp_extends_store (store : List StoredDoc) (op : ApiOp) :
    store <+: applyOp store op := by
  rcases applyOp_cases store op with h | ⟨_, _, _, _, _, d, _, h⟩
  · rw [h]
  · rw [h]; exact List.prefix_append _ _

/-- C9: under any sequence of calls to the four API operations, every
`TripItinerary` document already in the store stays in place unmodified
(the old store is a prefix of the new one), and the only operation that
changes the store is `POST /generate-itinerary`, whose only mutation is
appending one newly inserted document. -/
theorem store_immutable_C9 :
    (∀ (ops : List ApiOp) (store : List StoredDoc), store <+: applySeq store ops)
    ∧ (∀ (store : List StoredDoc) (op : ApiOp),
        applyOp store op = store
        ∨ ∃ body llm newId now iso d, op = ApiOp.generate body llm newId now iso
            ∧ applyOp store op = store ++ [d]) := by
  constructor
  · intro ops
    induction ops with
    | nil => intro store; exact List.prefix_rfl
    | cons op ops ih =>
        intro store
        exact (applyOp_extends_store store op).trans (ih (applyOp store op))
  · exact applyOp_cases
